import Mathlib

/-!
Shallow embedding of the RTOS `Task` class of the embedded simulator
(`src/include/rtos/task.h`, `src/src/rtos/task.cpp`).

Modelling conventions:
* `std::chrono::steady_clock::time_point` and the duration types become `Nat`
  ticks of one monotonic clock; the clock is passed explicitly to every
  operation that calls `steady_clock::now()`.
* The work-closure `std::function<void()>` is opaque: the only facts `execute`
  depends on are whether the invocation returns normally, throws something
  derived from `std::exception` (the only kind the catch clause at task.cpp:70
  handles), or throws anything else, which escapes the member function.
  `ClosureOutcome` and `executeFull` model all three; `execute` is the
  restriction to the two outcomes that stay inside the function (`WorkResult`).
  A null `task_function` behaves exactly like a closure that returns normally,
  so it needs no separate case.
* `execute` reads the clock three times: at `recordExecutionStart`, inside
  `checkDeadlineMiss` (via `hasDeadlinePassed`), and at `recordExecutionEnd`;
  these readings are the parameters `t_start`, `t_check`, `t_end`.
* The mutex and the atomics serialize the member functions; each member
  function is therefore one atomic step `Task → Task` (returning `Bool × Task`
  for the `bool`-returning mutators).
-/

namespace RTOS

/-- `Task::State` from task.h. -/
inductive TaskState where
  | ready
  | running
  | blocked
  | suspended
  | terminated
  | sleeping
  deriving DecidableEq, Repr

/-- `Task::TaskType` from task.h. -/
inductive TaskType where
  | periodic
  | aperiodic
  | sporadic
  | one_shot
  deriving DecidableEq, Repr

/-- `Task::TaskTiming` from task.h (all durations in clock ticks). -/
structure TaskTiming where
  period : Nat
  deadline : Nat
  execution_time : Nat
  worst_case_time : Nat
  deriving DecidableEq, Repr

/-- `Task::TaskStatistics` from task.h. -/
structure TaskStatistics where
  executions_count : Nat
  missed_deadlines : Nat
  context_switches : Nat
  total_execution_time : Nat
  max_execution_time : Nat
  min_execution_time : Nat
  creation_time : Nat
  last_execution : Nat
  deriving DecidableEq, Repr

/-- Outcome of invoking the work-closure, restricted to the cases that stay
inside `Task::execute`: normal return, or a thrown exception reaching the
catch block (which handles only `const std::exception&`).  `ClosureOutcome`
below additionally covers a throw the catch clause does not match. -/
inductive WorkResult where
  | ok
  | exn
  deriving DecidableEq, Repr

/-- Full outcome of invoking the work-closure: normal return, a throw derived
from `std::exception` (caught at task.cpp:70), or a throw of any other type,
which no clause of `Task::execute` catches. -/
inductive ClosureOutcome where
  | ok
  | std_exn
  | other_exn
  deriving DecidableEq, Repr

/-- The mutable fields of class `Task` (task.h).  `priority` keeps the
numeric value of the `Priority` enum (lower runs first). -/
structure Task where
  task_id : Nat
  name : String
  priority : Nat
  current_state : TaskState
  task_type : TaskType
  stack_size : Nat
  stack_overflow_detected : Bool
  timing : TaskTiming
  next_release_time : Nat
  deadline_time : Nat
  execution_start_time : Nat
  enabled : Bool
  delete_requested : Bool
  statistics : TaskStatistics
  deriving DecidableEq, Repr

namespace Task

/-- The `Task` constructor (task.cpp lines 7-37): state READY,
`next_release_time = now`, `deadline_time = now + timing.deadline`,
zeroed statistics stamped with the creation time. -/
def mkTask (id : Nat) (task_name : String) (prio : Nat)
    (type : TaskType) (timing_info : TaskTiming) (stack_sz : Nat)
    (now : Nat) : Task :=
  { task_id := id
    name := task_name
    priority := prio
    current_state := TaskState.ready
    task_type := type
    stack_size := stack_sz
    stack_overflow_detected := false
    timing := timing_info
    next_release_time := now
    deadline_time := now + timing_info.deadline
    execution_start_time := 0
    enabled := true
    delete_requested := false
    statistics :=
      { executions_count := 0
        missed_deadlines := 0
        context_switches := 0
        total_execution_time := 0
        max_execution_time := 0
        min_execution_time := 0
        creation_time := now
        last_execution := now } }

/-- `Task::setState`: store the new state and count a context switch when it
differs from the old one. -/
def setState (t : Task) (new_state : TaskState) : Task :=
  let old_state := t.current_state
  let t1 : Task := { t with current_state := new_state }
  if old_state ≠ new_state then
    { t1 with statistics :=
        { t1.statistics with context_switches := t1.statistics.context_switches + 1 } }
  else
    t1

/-- `Task::recordExecutionStart` at clock reading `now`. -/
def recordExecutionStart (t : Task) (now : Nat) : Task :=
  { t with execution_start_time := now
           statistics := { t.statistics with last_execution := now } }

/-- `Task::recordExecutionEnd` at clock reading `now` (the clock is monotone,
so the C++ duration is never negative and `Nat` subtraction is exact). -/
def recordExecutionEnd (t : Task) (now : Nat) : Task :=
  let execution_duration := now - t.execution_start_time
  let s0 : TaskStatistics := { t.statistics with
                total_execution_time := t.statistics.total_execution_time + execution_duration }
  let s1 :=
    if s0.executions_count = 1 then
      { s0 with max_execution_time := execution_duration
                min_execution_time := execution_duration }
    else
      let sa :=
        if execution_duration > s0.max_execution_time then
          { s0 with max_execution_time := execution_duration }
        else s0
      if execution_duration < sa.min_execution_time then
        { sa with min_execution_time := execution_duration }
      else sa
  { t with statistics := s1 }

/-- `Task::hasDeadlinePassed` at clock reading `now`. -/
def hasDeadlinePassed (t : Task) (now : Nat) : Bool :=
  now > t.deadline_time

/-- `Task::checkDeadlineMiss` at clock reading `now`. -/
def checkDeadlineMiss (t : Task) (now : Nat) : Task :=
  if hasDeadlinePassed t now then
    { t with statistics :=
        { t.statistics with missed_deadlines := t.statistics.missed_deadlines + 1 } }
  else t

/-- `Task::updateNextReleaseTime`: for a periodic task, add exactly one period
to `next_release_time` and recompute `deadline_time`; otherwise do nothing. -/
def updateNextReleaseTime (t : Task) : Task :=
  if t.task_type = TaskType.periodic then
    let nr := t.next_release_time + t.timing.period
    { t with next_release_time := nr
             deadline_time := nr + t.timing.deadline }
  else t

/-- The statement `statistics.executions_count++;` in `Task::execute`. -/
def incExecutions (t : Task) : Task :=
  { t with statistics :=
      { t.statistics with executions_count := t.statistics.executions_count + 1 } }

/-- `Task::execute` (task.cpp lines 39-76).  `t_start`, `t_check`, `t_end` are
the clock readings at `recordExecutionStart`, `checkDeadlineMiss`, and
`recordExecutionEnd`; `work` is how the work-closure invocation ends.  When the
closure throws, the catch block runs instead of the post-processing, so the
execution count, the deadline check and the re-arming are all skipped. -/
def execute (t : Task) (t_start : Nat) (work : WorkResult)
    (t_check : Nat) (t_end : Nat) : Task :=
  if t.enabled = false ∨ t.current_state ≠ TaskState.ready then
    t
  else
    let t2 := setState (recordExecutionStart t t_start) TaskState.running
    let t3 :=
      match work with
      | WorkResult.ok =>
          let tb := checkDeadlineMiss (incExecutions t2) t_check
          if tb.task_type = TaskType.periodic then
            setState (updateNextReleaseTime tb) TaskState.ready
          else if tb.task_type = TaskType.one_shot then
            setState tb TaskState.terminated
          else
            setState tb TaskState.ready
      | WorkResult.exn =>
          setState t2 TaskState.terminated
    recordExecutionEnd t3 t_end

/-- `Task::execute` with the full exception behavior of the source.  The
catch clause at task.cpp:70 is `catch (const std::exception& e)`, so a
closure throw not derived from `std::exception` propagates out of the member
function: `Except.error` models that escape and carries the task as the
throw leaves it — the mutations already made (`recordExecutionStart`, the
READY→RUNNING transition) persist on the object, while the execution count,
the deadline check, the re-arming and `recordExecutionEnd` are all skipped.
The two non-escaping outcomes coincide with `execute`. -/
def executeFull (t : Task) (t_start : Nat) (c : ClosureOutcome)
    (t_check : Nat) (t_end : Nat) : Except Task Task :=
  if t.enabled = false ∨ t.current_state ≠ TaskState.ready then
    Except.ok t
  else
    let t2 := setState (recordExecutionStart t t_start) TaskState.running
    match c with
    | ClosureOutcome.ok =>
        let tb := checkDeadlineMiss (incExecutions t2) t_check
        let t3 :=
          if tb.task_type = TaskType.periodic then
            setState (updateNextReleaseTime tb) TaskState.ready
          else if tb.task_type = TaskType.one_shot then
            setState tb TaskState.terminated
          else
            setState tb TaskState.ready
        Except.ok (recordExecutionEnd t3 t_end)
    | ClosureOutcome.std_exn =>
        Except.ok (recordExecutionEnd (setState t2 TaskState.terminated) t_end)
    | ClosureOutcome.other_exn =>
        Except.error t2

/-- `Task::isReadyToRun` at clock reading `now`. -/
def isReadyToRun (t : Task) (now : Nat) : Bool :=
  if t.enabled = false ∨ t.current_state ≠ TaskState.ready then
    false
  else if t.task_type = TaskType.periodic then
    decide (now ≥ t.next_release_time)
  else
    true

/-- `Task::suspend`: refused (with a warning) for a RUNNING task, otherwise
moves the task to SUSPENDED. -/
def suspend (t : Task) : Task :=
  if t.current_state = TaskState.running then t
  else setState t TaskState.suspended

/-- `Task::resume`: moves a SUSPENDED task back to READY, otherwise no-op. -/
def resume (t : Task) : Task :=
  if t.current_state = TaskState.suspended then setState t TaskState.ready
  else t

/-- `Task::terminate`: unconditionally set state TERMINATED, clear `enabled`,
set `delete_requested`. -/
def terminate (t : Task) : Task :=
  let t1 := setState t TaskState.terminated
  { t1 with enabled := false, delete_requested := true }

/-- `Task::sleep` at clock reading `now`: set state SLEEPING and
`next_release_time := now + duration`. -/
def sleep (t : Task) (now : Nat) (duration : Nat) : Task :=
  let t1 := setState t TaskState.sleeping
  { t1 with next_release_time := now + duration }

/-- `Task::setPriority`: rejected while RUNNING, otherwise stores the new
priority; the `Bool` is the C++ return value. -/
def setPriority (t : Task) (new_priority : Nat) : Bool × Task :=
  if t.current_state = TaskState.running then (false, t)
  else (true, { t with priority := new_priority })

/-- `Task::setPeriod`: rejected for non-periodic tasks, otherwise stores the
new period and calls `updateNextReleaseTime`; the `Bool` is the C++ return
value. -/
def setPeriod (t : Task) (new_period : Nat) : Bool × Task :=
  if t.task_type ≠ TaskType.periodic then (false, t)
  else
    let t1 : Task := { t with timing := { t.timing with period := new_period } }
    (true, updateNextReleaseTime t1)

/-- The schedule-state invariant from the specification:
`deadline_time = next_release_time + relative_deadline`. -/
def deadlineInv (t : Task) : Prop :=
  t.deadline_time = t.next_release_time + t.timing.deadline

instance (t : Task) : Decidable (deadlineInv t) := by
  unfold deadlineInv; infer_instance

end Task

end RTOS

open RTOS RTOS.Task

/-! ### Field lemmas for the helper operations -/

@[simp] theorem setState_current_state (t : RTOS.Task) (s : TaskState) :
    (setState t s).current_state = s := by
  unfold RTOS.Task.setState; dsimp only; split_ifs <;> rfl

@[simp] theorem setState_task_type (t : RTOS.Task) (s : TaskState) :
    (setState t s).task_type = t.task_type := by
  unfold RTOS.Task.setState; dsimp only; split_ifs <;> rfl

@[simp] theorem setState_enabled (t : RTOS.Task) (s : TaskState) :
    (setState t s).enabled = t.enabled := by
  unfold RTOS.Task.setState; dsimp only; split_ifs <;> rfl

@[simp] theorem setState_next_release_time (t : RTOS.Task) (s : TaskState) :
    (setState t s).next_release_time = t.next_release_time := by
  unfold RTOS.Task.setState; dsimp only; split_ifs <;> rfl

@[simp] theorem setState_deadline_time (t : RTOS.Task) (s : TaskState) :
    (setState t s).deadline_time = t.deadline_time := by
  unfold RTOS.Task.setState; dsimp only; split_ifs <;> rfl

@[simp] theorem setState_timing (t : RTOS.Task) (s : TaskState) :
    (setState t s).timing = t.timing := by
  unfold RTOS.Task.setState; dsimp only; split_ifs <;> rfl

@[simp] theorem setState_execution_start_time (t : RTOS.Task) (s : TaskState) :
    (setState t s).execution_start_time = t.execution_start_time := by
  unfold RTOS.Task.setState; dsimp only; split_ifs <;> rfl

@[simp] theorem setState_missed (t : RTOS.Task) (s : TaskState) :
    (setState t s).statistics.missed_deadlines = t.statistics.missed_deadlines := by
  unfold RTOS.Task.setState; dsimp only; split_ifs <;> rfl

@[simp] theorem setState_executions (t : RTOS.Task) (s : TaskState) :
    (setState t s).statistics.executions_count = t.statistics.executions_count := by
  unfold RTOS.Task.setState; dsimp only; split_ifs <;> rfl

@[simp] theorem setState_total (t : RTOS.Task) (s : TaskState) :
    (setState t s).statistics.total_execution_time = t.statistics.total_execution_time := by
  unfold RTOS.Task.setState; dsimp only; split_ifs <;> rfl

@[simp] theorem recordExecutionStart_current_state (t : RTOS.Task) (n : Nat) :
    (recordExecutionStart t n).current_state = t.current_state := rfl

@[simp] theorem recordExecutionStart_task_type (t : RTOS.Task) (n : Nat) :
    (recordExecutionStart t n).task_type = t.task_type := rfl

@[simp] theorem recordExecutionStart_enabled (t : RTOS.Task) (n : Nat) :
    (recordExecutionStart t n).enabled = t.enabled := rfl

@[simp] theorem recordExecutionStart_next_release_time (t : RTOS.Task) (n : Nat) :
    (recordExecutionStart t n).next_release_time = t.next_release_time := rfl

@[simp] theorem recordExecutionStart_deadline_time (t : RTOS.Task) (n : Nat) :
    (recordExecutionStart t n).deadline_time = t.deadline_time := rfl

@[simp] theorem recordExecutionStart_timing (t : RTOS.Task) (n : Nat) :
    (recordExecutionStart t n).timing = t.timing := rfl

@[simp] theorem recordExecutionStart_execution_start_time (t : RTOS.Task) (n : Nat) :
    (recordExecutionStart t n).execution_start_time = n := rfl

@[simp] theorem recordExecutionStart_missed (t : RTOS.Task) (n : Nat) :
    (recordExecutionStart t n).statistics.missed_deadlines = t.statistics.missed_deadlines := rfl

@[simp] theorem recordExecutionStart_executions (t : RTOS.Task) (n : Nat) :
    (recordExecutionStart t n).statistics.executions_count = t.statistics.executions_count := rfl

@[simp] theorem recordExecutionStart_total (t : RTOS.Task) (n : Nat) :
    (recordExecutionStart t n).statistics.total_execution_time =
      t.statistics.total_execution_time := rfl

@[simp] theorem incExecutions_current_state (t : RTOS.Task) :
    (incExecutions t).current_state = t.current_state := rfl

@[simp] theorem incExecutions_task_type (t : RTOS.Task) :
    (incExecutions t).task_type = t.task_type := rfl

@[simp] theorem incExecutions_enabled (t : RTOS.Task) :
    (incExecutions t).enabled = t.enabled := rfl

@[simp] theorem incExecutions_next_release_time (t : RTOS.Task) :
    (incExecutions t).next_release_time = t.next_release_time := rfl

@[simp] theorem incExecutions_deadline_time (t : RTOS.Task) :
    (incExecutions t).deadline_time = t.deadline_time := rfl

@[simp] theorem incExecutions_timing (t : RTOS.Task) :
    (incExecutions t).timing = t.timing := rfl

@[simp] theorem incExecutions_execution_start_time (t : RTOS.Task) :
    (incExecutions t).execution_start_time = t.execution_start_time := rfl

@[simp] theorem incExecutions_missed (t : RTOS.Task) :
    (incExecutions t).statistics.missed_deadlines = t.statistics.missed_deadlines := rfl

@[simp] theorem incExecutions_executions (t : RTOS.Task) :
    (incExecutions t).statistics.executions_count = t.statistics.executions_count + 1 := rfl

@[simp] theorem incExecutions_total (t : RTOS.Task) :
    (incExecutions t).statistics.total_execution_time = t.statistics.total_execution_time := rfl

@[simp] theorem checkDeadlineMiss_current_state (t : RTOS.Task) (n : Nat) :
    (checkDeadlineMiss t n).current_state = t.current_state := by
  unfold RTOS.Task.checkDeadlineMiss; split <;> rfl

@[simp] theorem checkDeadlineMiss_task_type (t : RTOS.Task) (n : Nat) :
    (checkDeadlineMiss t n).task_type = t.task_type := by
  unfold RTOS.Task.checkDeadlineMiss; split <;> rfl

@[simp] theorem checkDeadlineMiss_enabled (t : RTOS.Task) (n : Nat) :
    (checkDeadlineMiss t n).enabled = t.enabled := by
  unfold RTOS.Task.checkDeadlineMiss; split <;> rfl

@[simp] theorem checkDeadlineMiss_next_release_time (t : RTOS.Task) (n : Nat) :
    (checkDeadlineMiss t n).next_release_time = t.next_release_time := by
  unfold RTOS.Task.checkDeadlineMiss; split <;> rfl

@[simp] theorem checkDeadlineMiss_deadline_time (t : RTOS.Task) (n : Nat) :
    (checkDeadlineMiss t n).deadline_time = t.deadline_time := by
  unfold RTOS.Task.checkDeadlineMiss; split <;> rfl

@[simp] theorem checkDeadlineMiss_timing (t : RTOS.Task) (n : Nat) :
    (checkDeadlineMiss t n).timing = t.timing := by
  unfold RTOS.Task.checkDeadlineMiss; split <;> rfl

@[simp] theorem checkDeadlineMiss_execution_start_time (t : RTOS.Task) (n : Nat) :
    (checkDeadlineMiss t n).execution_start_time = t.execution_start_time := by
  unfold RTOS.Task.checkDeadlineMiss; split <;> rfl

@[simp] theorem checkDeadlineMiss_executions (t : RTOS.Task) (n : Nat) :
    (checkDeadlineMiss t n).statistics.executions_count = t.statistics.executions_count := by
  unfold RTOS.Task.checkDeadlineMiss; split <;> rfl

@[simp] theorem checkDeadlineMiss_total (t : RTOS.Task) (n : Nat) :
    (checkDeadlineMiss t n).statistics.total_execution_time =
      t.statistics.total_execution_time := by
  unfold RTOS.Task.checkDeadlineMiss; split <;> rfl

@[simp] theorem checkDeadlineMiss_missed (t : RTOS.Task) (n : Nat) :
    (checkDeadlineMiss t n).statistics.missed_deadlines =
      t.statistics.missed_deadlines + (if n > t.deadline_time then 1 else 0) := by
  unfold RTOS.Task.checkDeadlineMiss RTOS.Task.hasDeadlinePassed
  split_ifs with ha hb <;> simp_all

@[simp] theorem recordExecutionEnd_current_state (t : RTOS.Task) (n : Nat) :
    (recordExecutionEnd t n).current_state = t.current_state := rfl

@[simp] theorem recordExecutionEnd_task_type (t : RTOS.Task) (n : Nat) :
    (recordExecutionEnd t n).task_type = t.task_type := rfl

@[simp] theorem recordExecutionEnd_enabled (t : RTOS.Task) (n : Nat) :
    (recordExecutionEnd t n).enabled = t.enabled := rfl

@[simp] theorem recordExecutionEnd_delete_requested (t : RTOS.Task) (n : Nat) :
    (recordExecutionEnd t n).delete_requested = t.delete_requested := rfl

@[simp] theorem recordExecutionEnd_next_release_time (t : RTOS.Task) (n : Nat) :
    (recordExecutionEnd t n).next_release_time = t.next_release_time := rfl

@[simp] theorem recordExecutionEnd_deadline_time (t : RTOS.Task) (n : Nat) :
    (recordExecutionEnd t n).deadline_time = t.deadline_time := rfl

@[simp] theorem recordExecutionEnd_timing (t : RTOS.Task) (n : Nat) :
    (recordExecutionEnd t n).timing = t.timing := rfl

@[simp] theorem recordExecutionEnd_missed (t : RTOS.Task) (n : Nat) :
    (recordExecutionEnd t n).statistics.missed_deadlines =
      t.statistics.missed_deadlines := by
  unfold RTOS.Task.recordExecutionEnd; dsimp only; split_ifs <;> rfl

@[simp] theorem recordExecutionEnd_executions (t : RTOS.Task) (n : Nat) :
    (recordExecutionEnd t n).statistics.executions_count =
      t.statistics.executions_count := by
  unfold RTOS.Task.recordExecutionEnd; dsimp only; split_ifs <;> rfl

@[simp] theorem recordExecutionEnd_total (t : RTOS.Task) (n : Nat) :
    (recordExecutionEnd t n).statistics.total_execution_time =
      t.statistics.total_execution_time + (n - t.execution_start_time) := by
  unfold RTOS.Task.recordExecutionEnd; dsimp only; split_ifs <;> rfl

/-! ### Unfolding lemmas for execute -/

theorem execute_not_ready_eq (t : RTOS.Task) (ts tc te : Nat) (w : WorkResult)
    (h : t.enabled = false ∨ t.current_state ≠ TaskState.ready) :
    execute t ts w tc te = t := by
  unfold RTOS.Task.execute
  rw [if_pos h]

theorem execute_ready_ok_eq (t : RTOS.Task)
    (h1 : t.enabled = true) (h2 : t.current_state = TaskState.ready) (ts tc te : Nat) :
    execute t ts WorkResult.ok tc te =
      recordExecutionEnd
        (if (checkDeadlineMiss
              (incExecutions (setState (recordExecutionStart t ts) TaskState.running))
              tc).task_type = TaskType.periodic then
           setState
             (updateNextReleaseTime
               (checkDeadlineMiss
                 (incExecutions (setState (recordExecutionStart t ts) TaskState.running)) tc))
             TaskState.ready
         else if (checkDeadlineMiss
              (incExecutions (setState (recordExecutionStart t ts) TaskState.running))
              tc).task_type = TaskType.one_shot then
           setState
             (checkDeadlineMiss
               (incExecutions (setState (recordExecutionStart t ts) TaskState.running)) tc)
             TaskState.terminated
         else
           setState
             (checkDeadlineMiss
               (incExecutions (setState (recordExecutionStart t ts) TaskState.running)) tc)
             TaskState.ready)
        te := by
  unfold RTOS.Task.execute
  rw [if_neg]
  simp [h1, h2]

theorem execute_ready_exn_eq (t : RTOS.Task)
    (h1 : t.enabled = true) (h2 : t.current_state = TaskState.ready) (ts tc te : Nat) :
    execute t ts WorkResult.exn tc te =
      recordExecutionEnd
        (setState (setState (recordExecutionStart t ts) TaskState.running)
          TaskState.terminated) te := by
  unfold RTOS.Task.execute
  rw [if_neg]
  simp [h1, h2]

/-! ### Preservation of the deadline coupling invariant -/

theorem deadlineInv_execute (t : RTOS.Task) (h : RTOS.Task.deadlineInv t)
    (ts tc te : Nat) (w : WorkResult) :
    RTOS.Task.deadlineInv (execute t ts w tc te) := by
  by_cases hg : t.enabled = false ∨ t.current_state ≠ TaskState.ready
  · rw [execute_not_ready_eq t ts tc te w hg]; exact h
  · push_neg at hg
    obtain ⟨h1, h2⟩ := hg
    have h1' : t.enabled = true := by
      cases hb : t.enabled
      · exact absurd hb h1
      · rfl
    cases w
    · rw [execute_ready_ok_eq t h1' h2 ts tc te]
      unfold RTOS.Task.deadlineInv at h ⊢
      by_cases hp : t.task_type = TaskType.periodic
      · simp [hp, RTOS.Task.updateNextReleaseTime]
      · by_cases ho : t.task_type = TaskType.one_shot <;> simp [hp, ho, h]
    · rw [execute_ready_exn_eq t h1' h2 ts tc te]
      unfold RTOS.Task.deadlineInv at h ⊢
      simp [h]

theorem deadlineInv_suspend (t : RTOS.Task) (h : RTOS.Task.deadlineInv t) :
    RTOS.Task.deadlineInv (suspend t) := by
  unfold RTOS.Task.deadlineInv at h ⊢
  unfold RTOS.Task.suspend
  split_ifs <;> simp [h]

theorem deadlineInv_resume (t : RTOS.Task) (h : RTOS.Task.deadlineInv t) :
    RTOS.Task.deadlineInv (resume t) := by
  unfold RTOS.Task.deadlineInv at h ⊢
  unfold RTOS.Task.resume
  split_ifs <;> simp [h]

theorem deadlineInv_terminate (t : RTOS.Task) (h : RTOS.Task.deadlineInv t) :
    RTOS.Task.deadlineInv (terminate t) := by
  unfold RTOS.Task.deadlineInv at h ⊢
  unfold RTOS.Task.terminate
  dsimp only
  simp [h]

theorem deadlineInv_setPriority (t : RTOS.Task) (h : RTOS.Task.deadlineInv t) (p : Nat) :
    RTOS.Task.deadlineInv (setPriority t p).2 := by
  unfold RTOS.Task.deadlineInv at h ⊢
  unfold RTOS.Task.setPriority
  split_ifs <;> simp [h]

theorem deadlineInv_setPeriod (t : RTOS.Task) (h : RTOS.Task.deadlineInv t) (p : Nat) :
    RTOS.Task.deadlineInv (setPeriod t p).2 := by
  unfold RTOS.Task.deadlineInv at h ⊢
  unfold RTOS.Task.setPeriod RTOS.Task.updateNextReleaseTime
  dsimp only
  split_ifs <;> simp_all

theorem deadlineInv_mkTask (id : Nat) (nm : String) (prio : Nat) (ty : RTOS.TaskType)
    (tmg : RTOS.TaskTiming) (stz n0 : Nat) :
    RTOS.Task.deadlineInv (mkTask id nm prio ty tmg stz n0) := by
  unfold RTOS.Task.deadlineInv
  rfl

/-! ### Claim-level theorems -/

/-- Claim C1, amended: the coupling `deadline_time = next_release_time +
relative_deadline` is established by the constructor and preserved by
`execute`, `suspend`, `resume`, `terminate`, `setPriority` and `setPeriod`,
but not by `sleep`, which moves `next_release_time` without recomputing
`deadline_time`. -/
theorem deadline_coupling_all_ops_except_sleep (t : RTOS.Task)
    (h : RTOS.Task.deadlineInv t) (ts tc te p pr : Nat) (w : WorkResult) :
    RTOS.Task.deadlineInv (execute t ts w tc te) ∧
    RTOS.Task.deadlineInv (suspend t) ∧
    RTOS.Task.deadlineInv (resume t) ∧
    RTOS.Task.deadlineInv (terminate t) ∧
    RTOS.Task.deadlineInv (setPriority t pr).2 ∧
    RTOS.Task.deadlineInv (setPeriod t p).2 ∧
    (∀ id nm prio ty tmg stz n0,
      RTOS.Task.deadlineInv (mkTask id nm prio ty tmg stz n0)) :=
  ⟨deadlineInv_execute t h ts tc te w, deadlineInv_suspend t h, deadlineInv_resume t h,
   deadlineInv_terminate t h, deadlineInv_setPriority t h pr, deadlineInv_setPeriod t h p,
   fun id nm prio ty tmg stz n0 => deadlineInv_mkTask id nm prio ty tmg stz n0⟩

/-- Claim C1 witness: the invariant is preserved across a concrete dispatch. -/
theorem deadline_coupling_witness :
    RTOS.Task.deadlineInv
      (execute (mkTask 1 "a" 100 TaskType.periodic ⟨5, 5, 1, 2⟩ 8192 0)
        20 WorkResult.ok 20 20) :=
  (deadline_coupling_all_ops_except_sleep
    (mkTask 1 "a" 100 TaskType.periodic ⟨5, 5, 1, 2⟩ 8192 0)
    (by decide) 20 20 20 7 9 WorkResult.ok).1

/-- Claim C1 counterexample: `sleep` breaks the invariant, because it sets
`next_release_time := now + duration` while leaving `deadline_time` stale. -/
theorem deadline_coupling_fails_after_sleep :
    ¬ RTOS.Task.deadlineInv
        (sleep (mkTask 1 "a" 100 TaskType.periodic ⟨5, 5, 1, 2⟩ 8192 0) 0 100) := by
  decide

/-- Claim C2, amended: a completed dispatch of a periodic task advances
`next_release_time` by exactly one period (hence by a whole multiple),
regardless of the current time, and recomputes `deadline_time`; it does not
catch up past the current time. -/
theorem periodic_dispatch_adds_one_period (t : RTOS.Task)
    (h1 : t.enabled = true) (h2 : t.current_state = TaskState.ready)
    (h3 : t.task_type = TaskType.periodic) (ts tc te : Nat) :
    (execute t ts WorkResult.ok tc te).next_release_time =
      t.next_release_time + t.timing.period ∧
    (execute t ts WorkResult.ok tc te).deadline_time =
      t.next_release_time + t.timing.period + t.timing.deadline := by
  rw [execute_ready_ok_eq t h1 h2 ts tc te]
  constructor <;> simp [h3, RTOS.Task.updateNextReleaseTime]

/-- Claim C2 witness: a concrete on-time dispatch advances the release time by
one period. -/
theorem periodic_dispatch_adds_one_period_witness :
    (execute (mkTask 1 "a" 100 TaskType.periodic ⟨5, 5, 1, 2⟩ 8192 0)
        2 WorkResult.ok 2 2).next_release_time =
      (mkTask 1 "a" 100 TaskType.periodic ⟨5, 5, 1, 2⟩ 8192 0).next_release_time +
      (mkTask 1 "a" 100 TaskType.periodic ⟨5, 5, 1, 2⟩ 8192 0).timing.period :=
  (periodic_dispatch_adds_one_period
    (mkTask 1 "a" 100 TaskType.periodic ⟨5, 5, 1, 2⟩ 8192 0)
    (by decide) (by decide) (by decide) 2 2 2).1

/-- Claim C2 counterexample: a periodic task created at time 0 with period 5
and dispatched at time 20 gets `next_release_time = 5`, which does not
strictly exceed the time of the update. -/
theorem late_dispatch_release_not_beyond_now :
    (execute (mkTask 1 "a" 100 TaskType.periodic ⟨5, 5, 1, 2⟩ 8192 0)
        20 WorkResult.ok 20 20).next_release_time = 5 ∧
    ¬ (5 : Nat) > 20 := by
  decide

/-- Claim C3, amended: when the work-closure returns normally, a OneShot task
becomes TERMINATED and every other kind — Periodic, Aperiodic and Sporadic
alike — becomes READY immediately; no minimum inter-arrival time is stored or
enforced and the BLOCKED state is never entered by `execute`. -/
theorem completion_state_by_kind (t : RTOS.Task)
    (h1 : t.enabled = true) (h2 : t.current_state = TaskState.ready)
    (ts tc te : Nat) :
    (execute t ts WorkResult.ok tc te).current_state =
      (if t.task_type = TaskType.one_shot then TaskState.terminated
       else TaskState.ready) := by
  rw [execute_ready_ok_eq t h1 h2 ts tc te]
  by_cases hp : t.task_type = TaskType.periodic
  · simp [hp]
  · by_cases ho : t.task_type = TaskType.one_shot <;> simp [hp, ho]

/-- Claim C3 witness: a concrete OneShot dispatch ends TERMINATED. -/
theorem completion_state_by_kind_witness :
    (execute (mkTask 1 "a" 100 TaskType.one_shot ⟨5, 5, 1, 2⟩ 8192 0)
        0 WorkResult.ok 0 0).current_state =
      (if (mkTask 1 "a" 100 TaskType.one_shot ⟨5, 5, 1, 2⟩ 8192 0).task_type =
          TaskType.one_shot then TaskState.terminated
       else TaskState.ready) :=
  completion_state_by_kind (mkTask 1 "a" 100 TaskType.one_shot ⟨5, 5, 1, 2⟩ 8192 0)
    (by decide) (by decide) 0 0 0

/-- Claim C3 counterexample: a Sporadic task dispatched twice at the same
instant (zero elapsed time since its previous dispatch) is READY, not BLOCKED,
after the second dispatch. -/
theorem sporadic_ready_with_zero_elapsed :
    (execute
        (execute (mkTask 1 "s" 100 TaskType.sporadic ⟨5, 5, 1, 2⟩ 8192 0)
          0 WorkResult.ok 0 0)
        0 WorkResult.ok 0 0).current_state = TaskState.ready ∧
    TaskState.ready ≠ TaskState.blocked := by
  decide

/-- On a normal return of the closure, the full model agrees with `execute`:
no exception is in flight, nothing can escape. -/
theorem executeFull_ok_agrees (t : RTOS.Task) (ts tc te : Nat) :
    executeFull t ts ClosureOutcome.ok tc te =
      Except.ok (execute t ts WorkResult.ok tc te) := by
  unfold RTOS.Task.executeFull RTOS.Task.execute
  dsimp only
  split_ifs <;> rfl

/-- On a `std::exception`-derived throw, the full model agrees with `execute`:
the catch clause matches, so the call still returns normally. -/
theorem executeFull_std_exn_agrees (t : RTOS.Task) (ts tc te : Nat) :
    executeFull t ts ClosureOutcome.std_exn tc te =
      Except.ok (execute t ts WorkResult.exn tc te) := by
  unfold RTOS.Task.executeFull RTOS.Task.execute
  dsimp only
  split_ifs <;> rfl

/-- Claim C4, amended: only throws derived from `std::exception` are caught at
the dispatch boundary — for those the task is marked TERMINATED, the epilogue
still runs (`recordExecutionEnd` accumulates the execution time) and the call
returns normally, so scheduling of other tasks continues.  A throw of any
other type matches no catch clause: it propagates out of `execute`, leaving
the task RUNNING and enabled, with the execution count, the deadline-miss
counter and the execution-time total all untouched. -/
theorem exception_handling_by_catch_type (t : RTOS.Task)
    (h1 : t.enabled = true) (h2 : t.current_state = TaskState.ready)
    (ts tc te : Nat) :
    (executeFull t ts ClosureOutcome.std_exn tc te =
        Except.ok (execute t ts WorkResult.exn tc te) ∧
     (execute t ts WorkResult.exn tc te).current_state = TaskState.terminated ∧
     (execute t ts WorkResult.exn tc te).statistics.total_execution_time =
       t.statistics.total_execution_time + (te - ts)) ∧
    (executeFull t ts ClosureOutcome.other_exn tc te =
        Except.error (setState (recordExecutionStart t ts) TaskState.running) ∧
     (setState (recordExecutionStart t ts) TaskState.running).current_state =
        TaskState.running ∧
     (setState (recordExecutionStart t ts) TaskState.running).enabled = true ∧
     (setState (recordExecutionStart t ts) TaskState.running).statistics.executions_count =
        t.statistics.executions_count ∧
     (setState (recordExecutionStart t ts) TaskState.running).statistics.missed_deadlines =
        t.statistics.missed_deadlines ∧
     (setState (recordExecutionStart t ts) TaskState.running).statistics.total_execution_time =
        t.statistics.total_execution_time) := by
  constructor
  · refine ⟨executeFull_std_exn_agrees t ts tc te, ?_, ?_⟩ <;>
      rw [execute_ready_exn_eq t h1 h2 ts tc te] <;> simp
  · refine ⟨?_, by simp, by simp [h1], by simp, by simp, by simp⟩
    unfold RTOS.Task.executeFull
    rw [if_neg]
    simp [h1, h2]

/-- Claim C4 witness: a concrete dispatch exercising both the caught and the
escaping outcome. -/
theorem exception_handling_witness :
    (executeFull (mkTask 1 "a" 100 TaskType.periodic ⟨5, 5, 1, 2⟩ 8192 0)
        3 ClosureOutcome.std_exn 4 7 =
      Except.ok (execute (mkTask 1 "a" 100 TaskType.periodic ⟨5, 5, 1, 2⟩ 8192 0)
        3 WorkResult.exn 4 7) ∧
     (execute (mkTask 1 "a" 100 TaskType.periodic ⟨5, 5, 1, 2⟩ 8192 0)
        3 WorkResult.exn 4 7).current_state = TaskState.terminated ∧
     (execute (mkTask 1 "a" 100 TaskType.periodic ⟨5, 5, 1, 2⟩ 8192 0)
        3 WorkResult.exn 4 7).statistics.total_execution_time =
       (mkTask 1 "a" 100 TaskType.periodic ⟨5, 5, 1, 2⟩ 8192 0).statistics.total_execution_time
         + (7 - 3)) ∧
    (executeFull (mkTask 1 "a" 100 TaskType.periodic ⟨5, 5, 1, 2⟩ 8192 0)
        3 ClosureOutcome.other_exn 4 7 =
      Except.error
        (setState
          (recordExecutionStart (mkTask 1 "a" 100 TaskType.periodic ⟨5, 5, 1, 2⟩ 8192 0) 3)
          TaskState.running) ∧
     (setState
        (recordExecutionStart (mkTask 1 "a" 100 TaskType.periodic ⟨5, 5, 1, 2⟩ 8192 0) 3)
        TaskState.running).current_state = TaskState.running ∧
     (setState
        (recordExecutionStart (mkTask 1 "a" 100 TaskType.periodic ⟨5, 5, 1, 2⟩ 8192 0) 3)
        TaskState.running).enabled = true ∧
     (setState
        (recordExecutionStart (mkTask 1 "a" 100 TaskType.periodic ⟨5, 5, 1, 2⟩ 8192 0) 3)
        TaskState.running).statistics.executions_count =
       (mkTask 1 "a" 100 TaskType.periodic ⟨5, 5, 1, 2⟩ 8192 0).statistics.executions_count ∧
     (setState
        (recordExecutionStart (mkTask 1 "a" 100 TaskType.periodic ⟨5, 5, 1, 2⟩ 8192 0) 3)
        TaskState.running).statistics.missed_deadlines =
       (mkTask 1 "a" 100 TaskType.periodic ⟨5, 5, 1, 2⟩ 8192 0).statistics.missed_deadlines ∧
     (setState
        (recordExecutionStart (mkTask 1 "a" 100 TaskType.periodic ⟨5, 5, 1, 2⟩ 8192 0) 3)
        TaskState.running).statistics.total_execution_time =
       (mkTask 1 "a" 100 TaskType.periodic ⟨5, 5, 1, 2⟩ 8192 0).statistics.total_execution_time) :=
  exception_handling_by_catch_type
    (mkTask 1 "a" 100 TaskType.periodic ⟨5, 5, 1, 2⟩ 8192 0)
    (by decide) (by decide) 3 4 7

/-- Claim C4 counterexample: a concrete closure throw not derived from
`std::exception` propagates out of the dispatch (the call is an `error`, not
a normal return) and the task it leaves behind is RUNNING, not TERMINATED. -/
theorem uncaught_throw_escapes_dispatch :
    executeFull (mkTask 1 "a" 100 TaskType.periodic ⟨5, 5, 1, 2⟩ 8192 0)
        0 ClosureOutcome.other_exn 0 0 =
      Except.error
        (setState
          (recordExecutionStart (mkTask 1 "a" 100 TaskType.periodic ⟨5, 5, 1, 2⟩ 8192 0) 0)
          TaskState.running) ∧
    (setState
        (recordExecutionStart (mkTask 1 "a" 100 TaskType.periodic ⟨5, 5, 1, 2⟩ 8192 0) 0)
        TaskState.running).current_state = TaskState.running ∧
    TaskState.running ≠ TaskState.terminated :=
  ⟨rfl, by decide, by decide⟩

/-- Claim C5, amended: `terminate()` acts immediately on every task, a RUNNING
one included: it sets the state to TERMINATED, clears `enabled` and sets the
delete-requested flag; no transition is deferred to a later safe point. -/
theorem terminate_is_immediate (t : RTOS.Task) :
    (terminate t).current_state = TaskState.terminated ∧
    (terminate t).enabled = false ∧
    (terminate t).delete_requested = true := by
  unfold RTOS.Task.terminate
  dsimp only
  simp

/-- Claim C5 counterexample: `terminate` on a concrete RUNNING task does not
leave the state RUNNING — it moves it straight to TERMINATED. -/
theorem terminate_running_not_deferred :
    (terminate { mkTask 1 "a" 100 TaskType.periodic ⟨5, 5, 1, 2⟩ 8192 0 with
        current_state := TaskState.running }).current_state ≠ TaskState.running ∧
    (terminate { mkTask 1 "a" 100 TaskType.periodic ⟨5, 5, 1, 2⟩ 8192 0 with
        current_state := TaskState.running }).current_state = TaskState.terminated := by
  decide

/-- Claim C6: `sleep` does set the state to SLEEPING and
`next_release_time = now + duration`, but the task never becomes eligible
again: `isReadyToRun` demands state READY, so it stays false at every later
time, and no code path moves SLEEPING back to READY.  Evaluated here at the
failing input `sleep (task created at 0) 0 50`, observed at time 100. -/
theorem sleep_sets_sleeping_but_never_wakes :
    (sleep (mkTask 1 "a" 100 TaskType.periodic ⟨5, 5, 1, 2⟩ 8192 0)
        0 50).current_state = TaskState.sleeping ∧
    (sleep (mkTask 1 "a" 100 TaskType.periodic ⟨5, 5, 1, 2⟩ 8192 0)
        0 50).next_release_time = 0 + 50 ∧
    isReadyToRun (sleep (mkTask 1 "a" 100 TaskType.periodic ⟨5, 5, 1, 2⟩ 8192 0) 0 50)
        100 = false ∧
    (∀ m : Nat,
      isReadyToRun (sleep (mkTask 1 "a" 100 TaskType.periodic ⟨5, 5, 1, 2⟩ 8192 0) 0 50)
        m = false) := by
  refine ⟨by decide, by decide, by decide, fun m => ?_⟩
  unfold RTOS.Task.isReadyToRun
  rw [if_pos]
  right
  decide

/-- Claim C7, amended: `setPeriod` rejects only non-periodic tasks; on a
periodic task it succeeds in every lifecycle state, RUNNING included, storing
the new period and advancing `next_release_time` by it. -/
theorem setPeriod_succeeds_for_periodic_any_state (t : RTOS.Task)
    (h : t.task_type = TaskType.periodic) (p : Nat) :
    (setPeriod t p).1 = true ∧
    (setPeriod t p).2.timing.period = p ∧
    (setPeriod t p).2.next_release_time = t.next_release_time + p ∧
    (setPeriod t p).2.current_state = t.current_state := by
  unfold RTOS.Task.setPeriod RTOS.Task.updateNextReleaseTime
  dsimp only
  simp [h]

/-- Claim C7 witness: `setPeriod` applied to a concrete RUNNING periodic
task. -/
theorem setPeriod_witness_running :
    (setPeriod { mkTask 1 "a" 100 TaskType.periodic ⟨5, 5, 1, 2⟩ 8192 0 with
        current_state := TaskState.running } 42).1 = true ∧
    (setPeriod { mkTask 1 "a" 100 TaskType.periodic ⟨5, 5, 1, 2⟩ 8192 0 with
        current_state := TaskState.running } 42).2.timing.period = 42 ∧
    (setPeriod { mkTask 1 "a" 100 TaskType.periodic ⟨5, 5, 1, 2⟩ 8192 0 with
        current_state := TaskState.running } 42).2.next_release_time =
      ({ mkTask 1 "a" 100 TaskType.periodic ⟨5, 5, 1, 2⟩ 8192 0 with
        current_state := TaskState.running } : RTOS.Task).next_release_time + 42 ∧
    (setPeriod { mkTask 1 "a" 100 TaskType.periodic ⟨5, 5, 1, 2⟩ 8192 0 with
        current_state := TaskState.running } 42).2.current_state =
      ({ mkTask 1 "a" 100 TaskType.periodic ⟨5, 5, 1, 2⟩ 8192 0 with
        current_state := TaskState.running } : RTOS.Task).current_state :=
  setPeriod_succeeds_for_periodic_any_state
    { mkTask 1 "a" 100 TaskType.periodic ⟨5, 5, 1, 2⟩ 8192 0 with
        current_state := TaskState.running } (by decide) 42

/-- Claim C7 counterexample: on a concrete RUNNING periodic task, `setPeriod`
returns success and mutates both the stored period and `next_release_time`,
instead of failing and leaving them unchanged. -/
theorem setPeriod_while_running_succeeds :
    (setPeriod { mkTask 1 "a" 100 TaskType.periodic ⟨5, 5, 1, 2⟩ 8192 0 with
        current_state := TaskState.running } 42).1 = true ∧
    (setPeriod { mkTask 1 "a" 100 TaskType.periodic ⟨5, 5, 1, 2⟩ 8192 0 with
        current_state := TaskState.running } 42).2.timing.period ≠
      ({ mkTask 1 "a" 100 TaskType.periodic ⟨5, 5, 1, 2⟩ 8192 0 with
        current_state := TaskState.running } : RTOS.Task).timing.period ∧
    (setPeriod { mkTask 1 "a" 100 TaskType.periodic ⟨5, 5, 1, 2⟩ 8192 0 with
        current_state := TaskState.running } 42).2.next_release_time ≠
      ({ mkTask 1 "a" 100 TaskType.periodic ⟨5, 5, 1, 2⟩ 8192 0 with
        current_state := TaskState.running } : RTOS.Task).next_release_time := by
  decide

/-- Claim C8: `setPriority` on a RUNNING task returns the failure result
`false` and returns the task completely unchanged, priority included; no
exception is involved (the function is total). -/
theorem setPriority_rejected_while_running (t : RTOS.Task) (p : Nat)
    (h : t.current_state = TaskState.running) :
    setPriority t p = (false, t) := by
  unfold RTOS.Task.setPriority
  rw [if_pos h]

/-- Claim C8 witness: a concrete RUNNING task keeps its priority. -/
theorem setPriority_rejected_witness :
    setPriority { mkTask 1 "a" 100 TaskType.periodic ⟨5, 5, 1, 2⟩ 8192 0 with
        current_state := TaskState.running } 7 =
      (false, { mkTask 1 "a" 100 TaskType.periodic ⟨5, 5, 1, 2⟩ 8192 0 with
        current_state := TaskState.running }) :=
  setPriority_rejected_while_running
    { mkTask 1 "a" 100 TaskType.periodic ⟨5, 5, 1, 2⟩ 8192 0 with
        current_state := TaskState.running } 7 (by decide)

/-- Claim C9, amended: on a dispatch whose closure returns normally,
`missed_deadlines` grows by one exactly when the deadline-check time exceeds
the task's `deadline_time` as it was at that dispatch, and by zero otherwise;
a dispatch whose closure throws never increments the counter, even when it
completes past the deadline. -/
theorem missed_deadline_increment_per_dispatch (t : RTOS.Task)
    (h1 : t.enabled = true) (h2 : t.current_state = TaskState.ready)
    (ts tc te : Nat) :
    (execute t ts WorkResult.ok tc te).statistics.missed_deadlines =
      t.statistics.missed_deadlines + (if tc > t.deadline_time then 1 else 0) ∧
    (execute t ts WorkResult.exn tc te).statistics.missed_deadlines =
      t.statistics.missed_deadlines := by
  constructor
  · rw [execute_ready_ok_eq t h1 h2 ts tc te]
    by_cases hp : t.task_type = TaskType.periodic
    · simp [hp, RTOS.Task.updateNextReleaseTime]
    · by_cases ho : t.task_type = TaskType.one_shot <;> simp [hp, ho]
  · rw [execute_ready_exn_eq t h1 h2 ts tc te]
    simp

/-- Claim C9 witness: a concrete late dispatch counts exactly one miss. -/
theorem missed_deadline_increment_witness :
    (execute (mkTask 1 "a" 100 TaskType.periodic ⟨5, 5, 1, 2⟩ 8192 0)
        100 WorkResult.ok 100 100).statistics.missed_deadlines =
      (mkTask 1 "a" 100 TaskType.periodic ⟨5, 5, 1, 2⟩ 8192 0).statistics.missed_deadlines +
        (if 100 > (mkTask 1 "a" 100 TaskType.periodic ⟨5, 5, 1, 2⟩ 8192 0).deadline_time
         then 1 else 0) :=
  (missed_deadline_increment_per_dispatch
    (mkTask 1 "a" 100 TaskType.periodic ⟨5, 5, 1, 2⟩ 8192 0)
    (by decide) (by decide) 100 100 100).1

/-- Claim C9 counterexample: a dispatch whose closure throws at time 100, far
past the task's deadline of 5, leaves `missed_deadlines` at zero, where the
claim demands an increment of one for every dispatch completing past its
deadline. -/
theorem missed_deadline_not_counted_on_failure :
    (100 : Nat) > (mkTask 1 "a" 100 TaskType.periodic ⟨5, 5, 1, 2⟩ 8192 0).deadline_time ∧
    (execute (mkTask 1 "a" 100 TaskType.periodic ⟨5, 5, 1, 2⟩ 8192 0)
        100 WorkResult.exn 100 100).statistics.missed_deadlines = 0 := by
  decide

/-- Claim C10: when a task is disabled or not READY, `execute` is a complete
no-op — the returned task equals the input in every field: state, statistics,
timing, release and deadline times. -/
theorem execute_noop_when_disabled_or_not_ready (t : RTOS.Task)
    (ts tc te : Nat) (w : WorkResult)
    (h : t.enabled = false ∨ t.current_state ≠ TaskState.ready) :
    execute t ts w tc te = t :=
  execute_not_ready_eq t ts tc te w h

/-- Claim C10 witness: `execute` on a concrete SUSPENDED task is the
identity. -/
theorem execute_noop_witness :
    execute { mkTask 1 "a" 100 TaskType.periodic ⟨5, 5, 1, 2⟩ 8192 0 with
        current_state := TaskState.suspended } 3 WorkResult.ok 4 5 =
      { mkTask 1 "a" 100 TaskType.periodic ⟨5, 5, 1, 2⟩ 8192 0 with
        current_state := TaskState.suspended } :=
  execute_noop_when_disabled_or_not_ready
    { mkTask 1 "a" 100 TaskType.periodic ⟨5, 5, 1, 2⟩ 8192 0 with
        current_state := TaskState.suspended } 3 4 5 WorkResult.ok (by decide)
